import Mathlib

set_option maxRecDepth 8000

/- Verification of the msuso web-component scripts (card.js, navigation.js).

   The JavaScript sources are shallowly embedded below.  DOM-level plumbing
   (shadow roots, event listeners, MutationObserver wiring) is not logic and
   is not embedded; what is embedded is every pure computation the sources
   perform: attribute reading with JS truthiness, JSON.parse (a host builtin,
   modelled as a standard strict JSON parser), HTML-string construction with
   the manual escaping helper, badge style selection, the alpha-blending
   color helper, the link-list merging and filtering of the navbar and
   footer, and the theme-flag read and toggle. -/

/- ===== JavaScript value model =====
   Values produced by JSON.parse: null, booleans, numbers (kept as their
   source lexeme, which is what template interpolation prints for the
   integer-shaped numbers appearing here), strings, arrays and objects. -/

inductive Json where
  | null : Json
  | bool (b : Bool) : Json
  | num (lex : String) : Json
  | str (s : String) : Json
  | arr (xs : List Json) : Json
  | obj (fields : List (String × Json)) : Json
deriving Repr, Inhabited

/-- JS truthiness of a value: null and false are falsy, a number is falsy
when its mantissa is zero, a string is falsy when empty, arrays and objects
are truthy. -/
def jsTruthy : Json → Bool
  | Json.null => false
  | Json.bool b => b
  | Json.num lex =>
      !((lex.data.takeWhile (fun c => c ≠ 'e' ∧ c ≠ 'E')).all
          (fun c => !c.isDigit || c = '0'))
  | Json.str s => s != ""
  | Json.arr _ => true
  | Json.obj _ => true

/-- Template-literal stringification of a value, with a depth cap (fuel) far
beyond any depth the page can produce; arrays join their elements with
commas printing null as the empty string, objects print as
[object Object]. -/
def jsToStringFuel : Nat → Json → String
  | 0, _ => ""
  | Nat.succ n, j =>
    match j with
    | Json.null => "null"
    | Json.bool b => if b then "true" else "false"
    | Json.num lex => lex
    | Json.str s => s
    | Json.obj _ => "[object Object]"
    | Json.arr xs =>
        String.intercalate ","
          (xs.map (fun v =>
            match v with
            | Json.null => ""
            | w => jsToStringFuel n w))

def jsToString (j : Json) : String := jsToStringFuel 1000 j

/-- Property read v.k as in JS: throws a TypeError on null, returns the
field of an object (none meaning undefined), and undefined on every other
value (none of the property names read by these components exists on
strings, numbers, booleans or arrays). -/
def jsGetProp : Json → String → Except String (Option Json)
  | Json.null, _ => Except.error "TypeError: cannot read properties of null"
  | Json.obj fs, k => Except.ok ((fs.find? (fun p => p.1 = k)).map Prod.snd)
  | _, _ => Except.ok none

/-- JS x || y for an optional attribute value (getAttribute returns null for
an absent attribute, and the empty string is falsy). -/
def jsOrStr (o : Option String) (d : String) : String :=
  match o with
  | some s => if s = "" then d else s
  | none => d

/-- Truthiness of an attribute read: present and non-empty. -/
def truthyOpt : Option String → Bool
  | none => false
  | some s => s != ""

/-- JS x || the empty string, for a property read result (none = undefined). -/
def jsOrEmptyStr (o : Option Json) : Json :=
  match o with
  | some v => if jsTruthy v then v else Json.str ""
  | none => Json.str ""

/-- JS strict equality of a value against a string literal. -/
def jsStrictEqStr (v : Json) (s : String) : Bool :=
  match v with
  | Json.str t => t == s
  | _ => false

/-- Does the second list occur as a contiguous segment of the first? -/
def listHasSeg (sub : List Char) : List Char → Bool
  | [] => List.isPrefixOf sub []
  | c :: cs => List.isPrefixOf sub (c :: cs) || listHasSeg sub cs

/-- JS String.prototype.includes. -/
def strIncludes (s sub : String) : Bool := listHasSeg sub.data s.data

/-- JS String.prototype.startsWith. -/
def strStartsWith (s pre : String) : Bool := List.isPrefixOf pre.data s.data

/- ===== JSON.parse =====
   Host builtin, modelled as a strict JSON parser: literals, strings with
   escapes, numbers per the JSON grammar (lexeme kept), arrays and objects
   (later duplicate keys overwrite earlier ones, as in JS).  Recursion is
   fueled so every function reduces in the kernel; the initial fuel is ample
   for any input of the given length. -/

namespace JSON

def isWs (c : Char) : Bool := c = ' ' || c = '\t' || c = '\n' || c = '\r'

def skipWs : List Char → List Char
  | [] => []
  | c :: cs => if isWs c then skipWs cs else c :: cs

def hexDigitVal (c : Char) : Option Nat :=
  if '0' ≤ c ∧ c ≤ '9' then some (c.toNat - 48)
  else if 'a' ≤ c ∧ c ≤ 'f' then some (c.toNat - 87)
  else if 'A' ≤ c ∧ c ≤ 'F' then some (c.toNat - 55)
  else none

def escCharOf (c : Char) : Option Char :=
  if c = '"' then some '"'
  else if c = '\\' then some '\\'
  else if c = '/' then some '/'
  else if c = 'b' then some (Char.ofNat 8)
  else if c = 'f' then some (Char.ofNat 12)
  else if c = 'n' then some '\n'
  else if c = 'r' then some '\r'
  else if c = 't' then some '\t'
  else none

def errStr : String := "SyntaxError: bad JSON string"

/-- Parse the body of a JSON string literal (the opening quote already
consumed); returns the decoded characters and the remaining input. -/
def parseStrBody : List Char → Except String (List Char × List Char)
  | [] => Except.error errStr
  | '"' :: rest => Except.ok ([], rest)
  | '\\' :: 'u' :: a :: b :: c :: d :: rest =>
      (match hexDigitVal a, hexDigitVal b, hexDigitVal c, hexDigitVal d with
       | some x1, some x2, some x3, some x4 =>
         (match parseStrBody rest with
          | Except.ok (chars, rem) =>
              Except.ok (Char.ofNat (((x1 * 16 + x2) * 16 + x3) * 16 + x4) :: chars, rem)
          | Except.error e => Except.error e)
       | _, _, _, _ => Except.error errStr)
  | '\\' :: e :: rest =>
      (match escCharOf e with
       | some c2 =>
         (match parseStrBody rest with
          | Except.ok (chars, rem) => Except.ok (c2 :: chars, rem)
          | Except.error er => Except.error er)
       | none => Except.error errStr)
  | c :: rest =>
      if c.toNat < 32 then Except.error errStr
      else
        (match parseStrBody rest with
         | Except.ok (chars, rem) => Except.ok (c :: chars, rem)
         | Except.error er => Except.error er)

def errNum : String := "SyntaxError: bad JSON number"

/-- Longest leading run of decimal digits. -/
def takeDigits : List Char → List Char × List Char
  | [] => ([], [])
  | c :: cs =>
      if c.isDigit then
        let r := takeDigits cs
        (c :: r.1, r.2)
      else ([], c :: cs)

def numExpTail (lex : List Char) (cs : List Char) : Except String (Json × List Char) :=
  match cs with
  | [] => Except.ok (Json.num (String.mk lex), [])
  | c :: r =>
      if c = 'e' ∨ c = 'E' then
        match r with
        | [] => Except.error errNum
        | s :: r2 =>
            if s = '+' ∨ s = '-' then
              let d := takeDigits r2
              if d.1 = [] then Except.error errNum
              else Except.ok (Json.num (String.mk (lex ++ c :: s :: d.1)), d.2)
            else
              let d := takeDigits r
              if d.1 = [] then Except.error errNum
              else Except.ok (Json.num (String.mk (lex ++ c :: d.1)), d.2)
      else Except.ok (Json.num (String.mk lex), cs)

def numFracTail (lex : List Char) (cs : List Char) : Except String (Json × List Char) :=
  match cs with
  | '.' :: r =>
      let d := takeDigits r
      if d.1 = [] then Except.error errNum
      else numExpTail (lex ++ '.' :: d.1) d.2
  | _ => numExpTail lex cs

/-- Parse a JSON number starting at cs (first char is a minus or digit). -/
def parseNum (cs : List Char) : Except String (Json × List Char) :=
  let p := (match cs with
            | '-' :: r => (['-'], r)
            | _ => (([] : List Char), cs))
  match p.2 with
  | [] => Except.error errNum
  | c :: r =>
      if c = '0' then numFracTail (p.1 ++ ['0']) r
      else if c.isDigit then
        let d := takeDigits r
        numFracTail (p.1 ++ c :: d.1) d.2
      else Except.error errNum

def errEnd : String := "SyntaxError: unexpected end of JSON input"

def errTok : String := "SyntaxError: unexpected token in JSON"

def errKey : String := "SyntaxError: expected string key in JSON object"

def errColon : String := "SyntaxError: expected colon in JSON object"

def errSep : String := "SyntaxError: expected comma or closing bracket in JSON"

/-- Insert a parsed object member, overwriting an existing key in place as
JS object construction does. -/
def objInsert (fs : List (String × Json)) (k : String) (v : Json) : List (String × Json) :=
  match fs with
  | [] => [(k, v)]
  | (k2, v2) :: rest =>
      if k2 = k then (k2, v) :: rest else (k2, v2) :: objInsert rest k v

mutual

def parseVal : Nat → List Char → Except String (Json × List Char)
  | 0, _ => Except.error errTok
  | Nat.succ fuel, cs0 =>
    match skipWs cs0 with
    | [] => Except.error errEnd
    | 'n' :: 'u' :: 'l' :: 'l' :: r => Except.ok (Json.null, r)
    | 't' :: 'r' :: 'u' :: 'e' :: r => Except.ok (Json.bool true, r)
    | 'f' :: 'a' :: 'l' :: 's' :: 'e' :: r => Except.ok (Json.bool false, r)
    | '"' :: r =>
        (match parseStrBody r with
         | Except.ok (chars, rem) => Except.ok (Json.str (String.mk chars), rem)
         | Except.error e => Except.error e)
    | '[' :: r =>
        (match skipWs r with
         | ']' :: r2 => Except.ok (Json.arr [], r2)
         | r2 => parseArrItems fuel r2 [])
    | c :: r =>
        if c = Char.ofNat 123 then
          (match skipWs r with
           | [] => Except.error errEnd
           | c2 :: r2 =>
               if c2 = Char.ofNat 125 then Except.ok (Json.obj [], r2)
               else parseObjItems fuel (c2 :: r2) [])
        else if c = '-' ∨ c.isDigit then parseNum (c :: r)
        else Except.error errTok

def parseArrItems : Nat → List Char → List Json → Except String (Json × List Char)
  | 0, _, _ => Except.error errTok
  | Nat.succ fuel, cs, acc =>
    match parseVal fuel cs with
    | Except.error e => Except.error e
    | Except.ok (v, rest) =>
      match skipWs rest with
      | ',' :: r2 => parseArrItems fuel r2 (acc ++ [v])
      | ']' :: r2 => Except.ok (Json.arr (acc ++ [v]), r2)
      | _ => Except.error errSep

def parseObjItems : Nat → List Char → List (String × Json) →
    Except String (Json × List Char)
  | 0, _, _ => Except.error errTok
  | Nat.succ fuel, cs, acc =>
    match skipWs cs with
    | '"' :: r =>
      (match parseStrBody r with
       | Except.error e => Except.error e
       | Except.ok (kchars, r2) =>
         match skipWs r2 with
         | ':' :: r3 =>
           (match parseVal fuel r3 with
            | Except.error e => Except.error e
            | Except.ok (v, r4) =>
              let acc2 := objInsert acc (String.mk kchars) v
              match skipWs r4 with
              | ',' :: r5 => parseObjItems fuel r5 acc2
              | c :: r5 =>
                  if c = Char.ofNat 125 then Except.ok (Json.obj acc2, r5)
                  else Except.error errSep
              | [] => Except.error errSep)
         | _ => Except.error errColon)
    | _ => Except.error errKey

end

/-- JSON.parse: parse one value, allowing surrounding whitespace and
rejecting trailing input. -/
def parse (s : String) : Except String Json :=
  match parseVal (4 * (s.length + 4)) s.data with
  | Except.ok (v, rest) =>
    (match skipWs rest with
     | [] => Except.ok v
     | _ => Except.error errSep)
  | Except.error e => Except.error e

end JSON

/- ===== MsuCard.escapeHtml =====
   The source sets div.textContent and reads back div.innerHTML, which is
   the HTML text-node serialization: ampersand, the angle brackets and the
   no-break space are escaped, every other character is kept. -/

def escapeHtmlChar (c : Char) : String :=
  if c = '&' then "&amp;"
  else if c = '<' then "&lt;"
  else if c = '>' then "&gt;"
  else if c = Char.ofNat 160 then "&nbsp;"
  else String.singleton c

def escapeHtmlList : List Char → List Char
  | [] => []
  | c :: cs => (escapeHtmlChar c).data ++ escapeHtmlList cs

def MsuCard.escapeHtml (s : String) : String := String.mk (escapeHtmlList s.data)

/-- Stringification used when a JS value is passed to escapeHtml via
div.textContent: null becomes the empty string, other values print as in a
template literal. -/
def escapeHtmlJs (v : Json) : String :=
  match v with
  | Json.null => ""
  | w => MsuCard.escapeHtml (jsToString w)

/- ===== MsuBadge ===== -/

/-- JS parseInt(s, 16): skip leading whitespace, optional sign, then the
longest prefix of hex digits; none models NaN.  (The optional 0x prefix of
parseInt is not modelled; no call site can feed it a 0x-prefixed string of
length two.) -/
def hexAccum (acc : Nat) : List Char → Nat
  | [] => acc
  | c :: rest =>
      match JSON.hexDigitVal c with
      | some d => hexAccum (acc * 16 + d) rest
      | none => acc

def hexPrefixVal : List Char → Option Nat
  | [] => none
  | c :: rest =>
      match JSON.hexDigitVal c with
      | some d => some (hexAccum d rest)
      | none => none

def dropLeadingWs : List Char → List Char
  | [] => []
  | c :: cs => if c.isWhitespace then dropLeadingWs cs else c :: cs

def parseIntHex16 (s : String) : Option Int :=
  match dropLeadingWs s.data with
  | '-' :: rest => (hexPrefixVal rest).map (fun n => -(n : Int))
  | '+' :: rest => (hexPrefixVal rest).map (fun n => (n : Int))
  | cs => (hexPrefixVal cs).map (fun n => (n : Int))

/-- Printing of a parseInt result in a template literal: NaN prints as NaN. -/
def numToStr : Option Int → String
  | some n => toString n
  | none => "NaN"

/-- The maximal runs of decimal digits of a string, in order: the result of
the JS regex match /\d+/g. -/
def digitRunsAux (cur : List Char) : List Char → List String
  | [] => if cur = [] then [] else [String.mk cur.reverse]
  | c :: cs =>
      if c.isDigit then digitRunsAux (c :: cur) cs
      else if cur = [] then digitRunsAux [] cs
      else String.mk cur.reverse :: digitRunsAux [] cs

def digitRuns (s : String) : List String := digitRunsAux [] s.data

/-- MsuBadge.addAlpha from card.js: a #-prefixed color has the # removed and
three two-character substrings hex-parsed into channels; an rgb-prefixed
color with at least three digit runs re-emits the first three; everything
else is returned unchanged.  The alpha argument is a JS number; the
embedding receives the string that number interpolates to. -/
def MsuBadge.addAlpha (color : String) (alpha : String) : String :=
  if strStartsWith color "#" then
    let hex := color.drop 1
    let r := parseIntHex16 (hex.take 2)
    let g := parseIntHex16 ((hex.drop 2).take 2)
    let b := parseIntHex16 ((hex.drop 4).take 2)
    "rgba(" ++ numToStr r ++ ", " ++ numToStr g ++ ", " ++ numToStr b ++ ", " ++ alpha ++ ")"
  else if strStartsWith color "rgb" then
    match digitRuns color with
    | m0 :: m1 :: m2 :: _ =>
        "rgba(" ++ m0 ++ ", " ++ m1 ++ ", " ++ m2 ++ ", " ++ alpha ++ ")"
    | _ => color
  else color

/-- MsuBadge.getCustomColorStyles from card.js. -/
def MsuBadge.getCustomColorStyles (color : String) (isDarkTheme : Bool) : String :=
  if isDarkTheme then
    "\n                background: linear-gradient(90deg, "
      ++ MsuBadge.addAlpha color "0.3" ++ ", " ++ MsuBadge.addAlpha color "0.2"
      ++ ");\n                color: #ffffff;\n                border: 1px solid "
      ++ MsuBadge.addAlpha color "0.1" ++ ";\n            "
  else
    "\n                background-color: " ++ MsuBadge.addAlpha color "0.1"
      ++ ";\n                color: " ++ color
      ++ ";\n                border: 1px solid " ++ MsuBadge.addAlpha color "0.2"
      ++ ";\n            "

/- The style blocks appended by MsuBadge.getBadgeStyles, one definition per
template literal of the source. -/

def badgeBaseStyles : String :=
  "\n            .badge \x7b\n                display: inline-block;\n                padding: 0.25rem 0.75rem;\n                font-size: 0.875rem;\n                font-weight: 500;\n                border-radius: 9999px;\n                margin-right: 0.5rem;\n                margin-bottom: 0.5rem;\n                transition: all 200ms ease-in-out;\n            \x7d\n        "

def badgePurpleDark : String :=
  "\n                    .badge \x7b\n                        background: linear-gradient(90deg, rgba(109,40,217,0.28), rgba(159,122,234,0.28));\n                        color: #ffffff;\n                        border: 1px solid rgba(159,122,234,0.08);\n                    \x7d\n                "

def badgePurpleLight : String :=
  "\n                    .badge \x7b\n                        background-color: #f3e8ff;\n                        color: #6d28d9;\n                        border: 1px solid rgba(109,40,217,0.28);\n                    \x7d\n                "

def badgeOrangeDark : String :=
  "\n                    .badge \x7b\n                        background: linear-gradient(90deg, rgba(180,83,9,0.28), rgba(245,158,11,0.28));\n                        color: #ffffff;\n                        border: 1px solid rgba(245,158,11,0.08);\n                    \x7d\n                "

def badgeOrangeLight : String :=
  "\n                    .badge \x7b\n                        background-color: #fff7ed;\n                        color: #b45309;\n                        border: 1px solid rgba(180,83,9,0.28);\n                    \x7d\n                "

def badgeGreenDark : String :=
  "\n                    .badge \x7b\n                        background-color: #1a2622;\n                        color: #4ade80;\n                        border: none;\n                    \x7d\n                "

def badgeGreenLight : String :=
  "\n                    .badge \x7b\n                        background-color: #dcfce7;\n                        color: #1a9659;\n                        border: none;\n                    \x7d\n                "

/-- MsuBadge.getBadgeStyles from card.js: base styles plus the block picked
by the truthiness of the color attribute, the variant attribute and the
theme. -/
def MsuBadge.getBadgeStyles (variant customColor : Option String)
    (isDarkTheme : Bool) : String :=
  badgeBaseStyles ++
    (if truthyOpt customColor then
       "\n                .badge \x7b\n                    "
         ++ MsuBadge.getCustomColorStyles (customColor.getD "") isDarkTheme
         ++ "\n                \x7d\n            "
     else if variant = some "purple" then
       (if isDarkTheme then badgePurpleDark else badgePurpleLight)
     else if variant = some "orange" then
       (if isDarkTheme then badgeOrangeDark else badgeOrangeLight)
     else
       (if isDarkTheme then badgeGreenDark else badgeGreenLight))

/-- MsuBadge.render: the shadow-root markup, a style element holding the
computed styles and a slotted span. -/
def MsuBadge.render (variant customColor : Option String) (isDarkTheme : Bool) : String :=
  "\n            <style>\n                "
    ++ MsuBadge.getBadgeStyles variant customColor isDarkTheme
    ++ "\n            </style>\n            <span class=\"badge\"><slot></slot></span>\n        "

/- ===== MsuCard ===== -/

/-- The attributes of a msu-card element (getAttribute results; none when
the attribute is absent). -/
structure CardAttrs where
  title : Option String := none
  description : Option String := none
  badges : Option String := none
  colorBadges : Option String := none
  variant : Option String := none
  icon : Option String := none
  href : Option String := none

/-- The observable outcome of a successful MsuCard.render: the innerHTML
written and the console warnings issued. -/
structure CardOut where
  html : String
  warnings : List String
deriving Repr

/-- The try/catch around JSON.parse in MsuCard.render: on success the parsed
value, on failure the empty array that the variable keeps from its
initializer, together with a console warning. -/
def parseBadgeList (label : String) (attr : String) : Json × List String :=
  match JSON.parse attr with
  | Except.ok v => (v, [])
  | Except.error _ => (Json.arr [], [label ++ attr])

def errLength : String := "TypeError: cannot read length of null"

/-- JS v.length > 0 as used on the two parsed badge lists: throws on null,
length of arrays and strings, undefined (compared false) otherwise. -/
def jsLengthGtZero : Json → Except String Bool
  | Json.null => Except.error errLength
  | Json.arr xs => Except.ok (xs.length != 0)
  | Json.str s => Except.ok (s.data.length != 0)
  | _ => Except.ok false

/-- The short-circuit disjunction colorBadges.length > 0 || badges.length > 0. -/
def jsLenGtZeroOr (a b : Json) : Except String Bool :=
  match jsLengthGtZero a with
  | Except.error e => Except.error e
  | Except.ok true => Except.ok true
  | Except.ok false => jsLengthGtZero b

def errForEach : String := "TypeError: forEach is not a function"

/-- Accumulation of html += over an array, as a forEach body does. -/
def jsForEachArr (f : Json → Except String String) : List Json → Except String String
  | [] => Except.ok ""
  | x :: xs =>
      match f x with
      | Except.error e => Except.error e
      | Except.ok h =>
          match jsForEachArr f xs with
          | Except.error e => Except.error e
          | Except.ok t => Except.ok (h ++ t)

/-- JS v.forEach(f): only arrays have forEach; every other value throws a
TypeError. -/
def jsForEach (v : Json) (f : Json → Except String String) : Except String String :=
  match v with
  | Json.arr xs => jsForEachArr f xs
  | _ => Except.error errForEach

/-- The colored-badge forEach body of MsuCard.render: read text and color
with a || fallback to the empty string, then classify the color as a named
variant, a custom color, or absent. -/
def renderColorBadgeHtml (badge : Json) : Except String String :=
  match jsGetProp badge "text" with
  | Except.error e => Except.error e
  | Except.ok textProp =>
    match jsGetProp badge "color" with
    | Except.error e => Except.error e
    | Except.ok colorProp =>
      let text := jsOrEmptyStr textProp
      let color := jsOrEmptyStr colorProp
      if jsStrictEqStr color "purple" || jsStrictEqStr color "orange" then
        Except.ok ("<msu-badge variant=\"" ++ jsToString color ++ "\">"
          ++ escapeHtmlJs text ++ "</msu-badge>")
      else if jsTruthy color then
        Except.ok ("<msu-badge color=\"" ++ jsToString color ++ "\">"
          ++ escapeHtmlJs text ++ "</msu-badge>")
      else
        Except.ok ("<msu-badge>" ++ escapeHtmlJs text ++ "</msu-badge>")

/-- The plain-badge forEach body of MsuCard.render. -/
def renderPlainBadgeHtml (text : Json) : Except String String :=
  Except.ok ("<msu-badge>" ++ escapeHtmlJs text ++ "</msu-badge>")

/-- The badge-container block of MsuCard.render: entered when either parsed
list has a positive length, then both forEach loops run, colored badges
first. -/
def cardBadgesSection (colorBadges badges : Json) : Except String String :=
  match jsLenGtZeroOr colorBadges badges with
  | Except.error e => Except.error e
  | Except.ok false => Except.ok ""
  | Except.ok true =>
      match jsForEach colorBadges renderColorBadgeHtml with
      | Except.error e => Except.error e
      | Except.ok colorHtml =>
          match jsForEach badges renderPlainBadgeHtml with
          | Except.error e => Except.error e
          | Except.ok plainHtml =>
              Except.ok ("<div class=\"card-badges\">" ++ colorHtml ++ plainHtml ++ "</div>")

/-- MsuCard.render from card.js: attribute defaulting, the two guarded JSON
parses, and the assembled innerHTML; an error is a thrown TypeError. -/
def MsuCard.render (a : CardAttrs) : Except String CardOut :=
  let title := jsOrStr a.title "Untitled"
  let description := jsOrStr a.description ""
  let badgesJson := jsOrStr a.badges "[]"
  let colorBadgesJson := jsOrStr a.colorBadges "[]"
  let pb := parseBadgeList "Failed to parse badges JSON: " badgesJson
  let pcb := parseBadgeList "Failed to parse color-badges JSON: " colorBadgesJson
  let cardClass := if a.variant = some "green" then "card card-green" else "card"
  let hrefOpen :=
    if truthyOpt a.href then
      "<a href=\"" ++ MsuCard.escapeHtml (a.href.getD "") ++
        "\" class=\"card-link\" style=\"text-decoration: none; color: inherit; display: block;\">"
    else ""
  let hrefClose := if truthyOpt a.href then "</a>" else ""
  let iconHtml :=
    if truthyOpt a.icon then
      "<div style=\"font-size: 3rem; margin-bottom: var(--space-4);\">\n                <ion-icon name=\""
        ++ a.icon.getD "" ++ "\" style=\"font-size:3rem;\"></ion-icon>\n            </div>"
    else ""
  let titleHtml := "<h4 class=\"card-title\">" ++ MsuCard.escapeHtml title ++ "</h4>"
  let descriptionHtml :=
    if description != "" then
      "<p class=\"card-text\">" ++ MsuCard.escapeHtml description ++ "</p>"
    else ""
  match cardBadgesSection pcb.1 pb.1 with
  | Except.error e => Except.error e
  | Except.ok badgesHtml =>
      Except.ok
        { html := hrefOpen ++ "<div class=\"" ++ cardClass ++ "\">" ++ iconHtml
            ++ titleHtml ++ descriptionHtml ++ badgesHtml ++ "</div>" ++ hrefClose,
          warnings := pb.2 ++ pcb.2 }

/- ===== Navigation: shared data ===== -/

/-- A `\x7bhref, text\x7d` navigation link record. -/
structure LinkEntry where
  href : String
  text : String
deriving Repr, DecidableEq

def LinkEntry.toJson (l : LinkEntry) : Json :=
  Json.obj [("href", Json.str l.href), ("text", Json.str l.text)]

/-- defaultSiteLinks from navigation.js. -/
def defaultSiteLinkEntries : List LinkEntry :=
  [{ href := "/index.html", text := "Home" }, { href := "/future.html", text := "Demo" }]

/-- The same list as the JS array of objects the scripts actually hold. -/
def defaultSiteLinksJson : List Json := defaultSiteLinkEntries.map LinkEntry.toJson

def siteConfigBrandName : String := "MSU SO"

def siteConfigEmail : String := "scioly@msuso.org"

def siteConfigDescription : String :=
  "Supporting Michigan Science Olympiad through tournament volunteering, resources, and community building."

/-- Interpolation of a property read into a template literal: undefined
prints as the word undefined. -/
def jsInterpProp : Option Json → String
  | none => "undefined"
  | some v => jsToString v

/-- Spread [...v]: arrays spread to their elements, strings to their
characters, everything else throws a TypeError. -/
def jsSpread : Json → Except String (List Json)
  | Json.arr xs => Except.ok xs
  | Json.str s => Except.ok (s.data.map (fun c => Json.str (String.singleton c)))
  | _ => Except.error "TypeError: value is not iterable"

/-- The attribute read and parse shared by navbar and footer: a missing or
empty page-links attribute yields the empty array, anything else goes to
JSON.parse with no try/catch around it. -/
def parsePageLinks (pageLinksAttr : Option String) : Except String Json :=
  match pageLinksAttr with
  | some s => if s = "" then Except.ok (Json.arr []) else JSON.parse s
  | none => Except.ok (Json.arr [])

/- ===== MsuNavbar ===== -/

/-- One desktop nav entry, from the map in MsuNavbar.render. -/
def desktopNavLinkHtml (link : Json) : Except String String :=
  match jsGetProp link "href" with
  | Except.error e => Except.error e
  | Except.ok href =>
    match jsGetProp link "text" with
    | Except.error e => Except.error e
    | Except.ok text =>
        Except.ok ("<li><a href=\"" ++ jsInterpProp href ++ "\" class=\"navbar-link\">"
          ++ jsInterpProp text ++ "</a></li>")

/-- One mobile nav entry, from the map in MsuNavbar.render. -/
def mobileNavLinkHtml (link : Json) : Except String String :=
  match jsGetProp link "href" with
  | Except.error e => Except.error e
  | Except.ok href =>
    match jsGetProp link "text" with
    | Except.error e => Except.error e
    | Except.ok text =>
        Except.ok ("<li><a href=\"" ++ jsInterpProp href ++ "\" class=\"mobile-menu-link\">"
          ++ jsInterpProp text ++ "</a></li>")

/-- links.map(f).join of the two nav maps, with property-read TypeErrors
propagated. -/
def navJoin (f : Json → Except String String) : List Json → Except String String
  | [] => Except.ok ""
  | l :: ls =>
      match f l with
      | Except.error e => Except.error e
      | Except.ok h =>
          match navJoin f ls with
          | Except.error e => Except.error e
          | Except.ok t => Except.ok (h ++ t)

/-- The navbar innerHTML template with the two link lists spliced in. -/
def navbarShellHtml (desktopNavLinks mobileNavLinks : String) : String :=
  "\n            <nav class=\"navbar\">"
    ++ "\n                <div class=\"container navbar-content\">"
    ++ "\n                    <div class=\"navbar-brand\">" ++ siteConfigBrandName ++ "</div>"
    ++ "\n                    "
    ++ "\n                    <!-- Desktop Navigation -->"
    ++ "\n                    <ul class=\"navbar-nav\">"
    ++ "\n                        " ++ desktopNavLinks
    ++ "\n                    </ul>"
    ++ "\n                    "
    ++ "\n                    <!-- Theme Toggle & Mobile Menu Button -->"
    ++ "\n                    <div style=\"display: flex; align-items: center; gap: var(--space-3);\">"
    ++ "\n                        <button class=\"theme-toggle\" id=\"themeToggle\" aria-label=\"Toggle dark mode\">"
    ++ "\n                            <ion-icon id=\"themeIcon\" name=\"moon-outline\" style=\"font-size:1.2rem; vertical-align:middle;\"></ion-icon>"
    ++ "\n                            <span id=\"themeText\">Dark</span>"
    ++ "\n                        </button>"
    ++ "\n                        <button class=\"navbar-toggle\" id=\"mobileMenuToggle\" aria-label=\"Open menu\">"
    ++ "\n                            <ion-icon id=\"mobileMenuIcon\" name=\"menu-outline\" style=\"font-size:1.4rem;\"></ion-icon>"
    ++ "\n                        </button>"
    ++ "\n                    </div>"
    ++ "\n                </div>"
    ++ "\n            </nav>"
    ++ "\n"
    ++ "\n            <!-- Mobile Menu Overlay -->"
    ++ "\n            <div class=\"mobile-menu-overlay\" id=\"mobileMenuOverlay\"></div>"
    ++ "\n"
    ++ "\n            <!-- Mobile Menu Drawer -->"
    ++ "\n            <div class=\"mobile-menu\" id=\"mobileMenu\">"
    ++ "\n                <div class=\"mobile-menu-header\">"
    ++ "\n                    <div class=\"mobile-menu-brand\">" ++ siteConfigBrandName ++ "</div>"
    ++ "\n                    <button class=\"mobile-menu-close\" id=\"mobileMenuClose\" aria-label=\"Close menu\">"
    ++ "\n                        <ion-icon id=\"mobileCloseIcon\" name=\"close-outline\" style=\"font-size:1.2rem;\"></ion-icon>"
    ++ "\n                    </button>"
    ++ "\n                </div>"
    ++ "\n                <ul class=\"mobile-menu-nav\">"
    ++ "\n                    " ++ mobileNavLinks
    ++ "\n                </ul>"
    ++ "\n                <div class=\"mobile-menu-footer\">"
    ++ "\n                    <button class=\"theme-toggle\" id=\"mobileThemeToggle\" aria-label=\"Toggle dark mode\" style=\"width: 100%; display:flex; align-items:center; justify-content:center; gap: .5rem;\">"
    ++ "\n                        <ion-icon id=\"mobileThemeIcon\" name=\"moon-outline\" style=\"font-size:1.1rem;\"></ion-icon>"
    ++ "\n                        <span id=\"mobileThemeText\">Dark Mode</span>"
    ++ "\n                    </button>"
    ++ "\n                </div>"
    ++ "\n            </div>"
    ++ "\n        "

/-- MsuNavbar.render from navigation.js: both link lists are generated from
the same links argument and spliced into the shell. -/
def MsuNavbar.render (links : List Json) : Except String String :=
  match navJoin desktopNavLinkHtml links with
  | Except.error e => Except.error e
  | Except.ok desktopNavLinks =>
      match navJoin mobileNavLinkHtml links with
      | Except.error e => Except.error e
      | Except.ok mobileNavLinks =>
          Except.ok (navbarShellHtml desktopNavLinks mobileNavLinks)

/-- MsuNavbar.connectedCallback: parse the page-links attribute (unguarded),
merge after the fixed site links, render.  Event-listener attachment is DOM
wiring; its theme-flag logic is modelled separately below. -/
def MsuNavbar.connectedCallback (pageLinksAttr : Option String) : Except String String :=
  match parsePageLinks pageLinksAttr with
  | Except.error e => Except.error e
  | Except.ok pageLinks =>
      match jsSpread pageLinks with
      | Except.error e => Except.error e
      | Except.ok pl => MsuNavbar.render (defaultSiteLinksJson ++ pl)

/- ===== MsuFooter ===== -/

/-- The filter predicate of MsuFooter.connectedCallback:
!link.href.includes of the string hash-home, and link.href strictly unequal
to index.html; property reads and method calls on non-strings throw. -/
def footerLinkKeep (link : Json) : Except String Bool :=
  match jsGetProp link "href" with
  | Except.error e => Except.error e
  | Except.ok none => Except.error "TypeError: includes is not a function"
  | Except.ok (some (Json.str s)) =>
      Except.ok (!(strIncludes s "#home") && (s != "index.html"))
  | Except.ok (some _) => Except.error "TypeError: includes is not a function"

/-- Array.prototype.filter with a possibly-throwing predicate. -/
def jsFilterExcept (p : Json → Except String Bool) : List Json → Except String (List Json)
  | [] => Except.ok []
  | x :: xs =>
      match p x with
      | Except.error e => Except.error e
      | Except.ok b =>
          match jsFilterExcept p xs with
          | Except.error e => Except.error e
          | Except.ok rest => Except.ok (if b then x :: rest else rest)

/-- One footer quick-link entry, from the map in MsuFooter.render. -/
def footerQuickLinkHtml (link : Json) : Except String String :=
  match jsGetProp link "href" with
  | Except.error e => Except.error e
  | Except.ok href =>
    match jsGetProp link "text" with
    | Except.error e => Except.error e
    | Except.ok text =>
        Except.ok ("<li><a href=\"" ++ jsInterpProp href
          ++ "\" style=\"color: var(--color-text-secondary); font-size: var(--font-size-sm);\">"
          ++ jsInterpProp text ++ "</a></li>")

/-- The footer innerHTML template; the copyright year is the host clock
value new Date().getFullYear(), taken as a parameter. -/
def footerShellHtml (quickLinks : String) (year : Nat) : String :=
  "\n            <footer class=\"bg-secondary\" style=\"padding: var(--space-12) 0; margin-top: var(--space-16);\">"
    ++ "\n                <div class=\"container\">"
    ++ "\n                    <div class=\"grid grid-3\">"
    ++ "\n                        <div>"
    ++ "\n                            <h4 style=\"color: var(--color-primary); margin-bottom: var(--space-4);\">MSU Science Olympiad</h4>"
    ++ "\n                            <p style=\"color: var(--color-text-secondary); font-size: var(--font-size-sm);\">"
    ++ "\n                                " ++ siteConfigDescription
    ++ "\n                            </p>"
    ++ "\n                        </div>"
    ++ "\n                        <div>"
    ++ "\n                            <h5 style=\"margin-bottom: var(--space-3);\">Quick Links</h5>"
    ++ "\n                            <ul style=\"list-style: none; display: flex; flex-direction: column; gap: var(--space-2);\">"
    ++ "\n                                " ++ quickLinks
    ++ "\n                            </ul>"
    ++ "\n                        </div>"
    ++ "\n                        <div>"
    ++ "\n                            <h5 style=\"margin-bottom: var(--space-3);\">Connect</h5>"
    ++ "\n                            <p style=\"color: var(--color-text-secondary); font-size: var(--font-size-sm);\">"
    ++ "\n                                Email: <a href=\"mailto:" ++ siteConfigEmail ++ "\">" ++ siteConfigEmail ++ "</a><br>"
    ++ "\n                                Follow us on social media for updates and announcements."
    ++ "\n                            </p>"
    ++ "\n                        </div>"
    ++ "\n                    </div>"
    ++ "\n                    <div style=\"text-align: center; margin-top: var(--space-8); padding-top: var(--space-6); border-top: 1px solid var(--color-border);\">"
    ++ "\n                        <p style=\"color: var(--color-text-tertiary); font-size: var(--font-size-sm);\">"
    ++ "\n                            &copy; " ++ toString year ++ " Michigan State University Science Olympiad"
    ++ "\n                        </p>"
    ++ "\n                    </div>"
    ++ "\n                </div>"
    ++ "\n            </footer>"
    ++ "\n        "

/-- MsuFooter.render from navigation.js. -/
def MsuFooter.render (links : List Json) (year : Nat) : Except String String :=
  match navJoin footerQuickLinkHtml links with
  | Except.error e => Except.error e
  | Except.ok quickLinks => Except.ok (footerShellHtml quickLinks year)

/-- MsuFooter.connectedCallback: unguarded parse, merge, the home-exclusion
filter, render. -/
def MsuFooter.connectedCallback (pageLinksAttr : Option String) (year : Nat) :
    Except String String :=
  match parsePageLinks pageLinksAttr with
  | Except.error e => Except.error e
  | Except.ok pageLinks =>
      match jsSpread pageLinks with
      | Except.error e => Except.error e
      | Except.ok pl =>
          match jsFilterExcept footerLinkKeep (defaultSiteLinksJson ++ pl) with
          | Except.error e => Except.error e
          | Except.ok allLinks => MsuFooter.render allLinks year

/- ===== Theme flag ===== -/

/-- The shared theme state: the data-theme attribute of the document root
and the persisted localStorage value (none when absent). -/
structure ThemeState where
  dataTheme : Option String
  storedTheme : Option String
deriving Repr, DecidableEq

/-- The read at the start of setupThemeToggle:
localStorage.getItem of theme, or light when that is falsy. -/
def setupThemeCurrentTheme (stored : Option String) : String :=
  jsOrStr stored "light"

/-- setupThemeToggle applies the read value to the document root. -/
def setupThemeApply (st : ThemeState) : ThemeState :=
  { st with dataTheme := some (setupThemeCurrentTheme st.storedTheme) }

/-- toggleTheme from navigation.js: read the current data-theme attribute,
flip light to dark and anything else to light, set the attribute and
persist. -/
def toggleTheme (st : ThemeState) : ThemeState :=
  let currentTheme := st.dataTheme
  let newTheme := if currentTheme = some "light" then "dark" else "light"
  { dataTheme := some newTheme, storedTheme := some newTheme }

/- ===== Spec-side definitions =====
   These restate what the spec sentences promise, to be compared against the
   source-derived functions above. -/

/-- Concatenation of a rendered template over a list (map then join with no
separator). -/
def concatMapStr (f : α → String) : List α → String
  | [] => ""
  | x :: xs => f x ++ concatMapStr f xs

/-- A well-formed color-badges entry `\x7btext, color\x7d` as a JS object. -/
def mkColorBadge (text color : String) : Json :=
  Json.obj [("text", Json.str text), ("color", Json.str color)]

/-- The badge markup the spec describes for a color-badges entry: a color
equal to a named variant gives variant=name, a non-empty unrecognized color
gives color=value, an empty color gives a default badge; the text is
escaped. -/
def specColorBadgeHtml (text color : String) : String :=
  if color = "purple" ∨ color = "orange" then
    "<msu-badge variant=\"" ++ color ++ "\">" ++ MsuCard.escapeHtml text ++ "</msu-badge>"
  else if color ≠ "" then
    "<msu-badge color=\"" ++ color ++ "\">" ++ MsuCard.escapeHtml text ++ "</msu-badge>"
  else
    "<msu-badge>" ++ MsuCard.escapeHtml text ++ "</msu-badge>"

/-- The default badge markup the spec describes for a plain badges entry. -/
def specPlainBadgeHtml (text : String) : String :=
  "<msu-badge>" ++ MsuCard.escapeHtml text ++ "</msu-badge>"

/-- The nav list entry the spec describes: one template over href and text,
the css class being the only difference between the desktop and the mobile
rendering. -/
def specNavLinkHtml (cls : String) (l : LinkEntry) : String :=
  "<li><a href=\"" ++ l.href ++ ("\" class=\"" ++ cls ++ "\">") ++ l.text ++ "</a></li>"

/- ===== Helper lemmas ===== -/

lemma jsToString_str (s : String) : jsToString (Json.str s) = s := rfl

lemma escapeHtmlJs_str (s : String) : escapeHtmlJs (Json.str s) = MsuCard.escapeHtml s := rfl

lemma jsOrEmptyStr_str (t : String) :
    jsOrEmptyStr (some (Json.str t)) = Json.str t := by
  by_cases h : t = "" <;> simp [jsOrEmptyStr, jsTruthy, h]

lemma renderColorBadgeHtml_mk (t c : String) :
    renderColorBadgeHtml (mkColorBadge t c) = Except.ok (specColorBadgeHtml t c) := by
  by_cases hp : c = "purple"
  · simp [renderColorBadgeHtml, mkColorBadge, jsGetProp, List.find?, jsOrEmptyStr_str,
      jsStrictEqStr, jsToString_str, escapeHtmlJs_str, specColorBadgeHtml, hp]
  · by_cases ho : c = "orange"
    · simp [renderColorBadgeHtml, mkColorBadge, jsGetProp, List.find?, jsOrEmptyStr_str,
        jsStrictEqStr, jsToString_str, escapeHtmlJs_str, specColorBadgeHtml, hp, ho]
    · by_cases he : c = ""
      · simp [renderColorBadgeHtml, mkColorBadge, jsGetProp, List.find?, jsOrEmptyStr_str,
          jsStrictEqStr, jsTruthy, jsToString_str, escapeHtmlJs_str, specColorBadgeHtml,
          hp, ho, he]
      · simp [renderColorBadgeHtml, mkColorBadge, jsGetProp, List.find?, jsOrEmptyStr_str,
          jsStrictEqStr, jsTruthy, jsToString_str, escapeHtmlJs_str, specColorBadgeHtml,
          hp, ho, he]

lemma jsForEachArr_colorBadges (cbs : List (String × String)) :
    jsForEachArr renderColorBadgeHtml (cbs.map (fun p => mkColorBadge p.1 p.2))
      = Except.ok (concatMapStr (fun p => specColorBadgeHtml p.1 p.2) cbs) := by
  induction cbs with
  | nil => rfl
  | cons p ps ih => simp [jsForEachArr, renderColorBadgeHtml_mk, ih, concatMapStr]

lemma jsForEachArr_plainBadges (bs : List String) :
    jsForEachArr renderPlainBadgeHtml (bs.map Json.str)
      = Except.ok (concatMapStr specPlainBadgeHtml bs) := by
  induction bs with
  | nil => rfl
  | cons b rest ih =>
      simp [jsForEachArr, renderPlainBadgeHtml, ih, concatMapStr, specPlainBadgeHtml,
        escapeHtmlJs_str, jsToString_str]

lemma navJoin_map_ok (f : Json → Except String String) (tmpl : LinkEntry → String)
    (hf : ∀ l : LinkEntry, f l.toJson = Except.ok (tmpl l)) :
    ∀ ls : List LinkEntry,
      navJoin f (ls.map LinkEntry.toJson) = Except.ok (concatMapStr tmpl ls) := by
  intro ls
  induction ls with
  | nil => rfl
  | cons l rest ih => simp [navJoin, hf, ih, concatMapStr]

lemma escapeHtmlChar_no_angle (c : Char) :
    ('<' ∉ (escapeHtmlChar c).data) ∧ ('>' ∉ (escapeHtmlChar c).data) := by
  by_cases h1 : c = '&'
  · constructor <;> simp [escapeHtmlChar, h1]
  · by_cases h2 : c = '<'
    · constructor <;> simp [escapeHtmlChar, h1, h2]
    · by_cases h3 : c = '>'
      · constructor <;> simp [escapeHtmlChar, h1, h2, h3]
      · by_cases h4 : c = Char.ofNat 160
        · constructor <;> simp [escapeHtmlChar, h1, h2, h3, h4]
        · have hd : (escapeHtmlChar c).data = [c] := by
            simp [escapeHtmlChar, h1, h2, h3, h4, String.singleton]
          rw [hd]
          constructor
          · intro hm
            exact h2 ((List.mem_singleton.mp hm).symm)
          · intro hm
            exact h3 ((List.mem_singleton.mp hm).symm)

lemma escapeHtmlList_no_angle (l : List Char) :
    ('<' ∉ escapeHtmlList l) ∧ ('>' ∉ escapeHtmlList l) := by
  induction l with
  | nil => exact ⟨by simp [escapeHtmlList], by simp [escapeHtmlList]⟩
  | cons c cs ih =>
      have hc := escapeHtmlChar_no_angle c
      constructor
      · intro hmem
        rw [escapeHtmlList] at hmem
        rcases List.mem_append.mp hmem with h | h
        · exact hc.1 h
        · exact ih.1 h
      · intro hmem
        rw [escapeHtmlList] at hmem
        rcases List.mem_append.mp hmem with h | h
        · exact hc.2 h
        · exact ih.2 h

/- ===== Claim theorems ===== -/

/-- Claim C2 (counterexample): the href attribute IS escaped before
insertion — a card whose href contains an angle bracket renders the escaped
form and the raw form does not occur in the output — contradicting the
claim that href is inserted without any escaping. -/
theorem card_href_is_escaped_cex :
    MsuCard.render { href := some "a<b" }
      = Except.ok
          { html := "<a href=\"a&lt;b\" class=\"card-link\" style=\"text-decoration: none; color: inherit; display: block;\"><div class=\"card\"><h4 class=\"card-title\">Untitled</h4></div></a>",
            warnings := [] }
    ∧ strIncludes "<a href=\"a&lt;b\" class=\"card-link\" style=\"text-decoration: none; color: inherit; display: block;\"><div class=\"card\"><h4 class=\"card-title\">Untitled</h4></div></a>" "href=\"a<b\"" = false
    ∧ strIncludes "<a href=\"a&lt;b\" class=\"card-link\" style=\"text-decoration: none; color: inherit; display: block;\"><div class=\"card\"><h4 class=\"card-title\">Untitled</h4></div></a>" "href=\"a&lt;b\"" = true :=
  ⟨rfl, by rfl, by rfl⟩

/-- Claim C2 (amended): title, description and each badge text are
HTML-escaped before insertion — escaped text can never contain an angle
bracket, and a title of literal script tags renders as escaped text — and
the href attribute value is escaped too; only the icon is inserted
verbatim. -/
theorem card_escaping_policy :
    (∀ s : String,
        '<' ∉ (MsuCard.escapeHtml s).data ∧ '>' ∉ (MsuCard.escapeHtml s).data)
    ∧ MsuCard.render { title := some "<script>" }
        = Except.ok
            { html := "<div class=\"card\"><h4 class=\"card-title\">&lt;script&gt;</h4></div>",
              warnings := [] }
    ∧ MsuCard.render { href := some "a<b" }
        = Except.ok
            { html := "<a href=\"a&lt;b\" class=\"card-link\" style=\"text-decoration: none; color: inherit; display: block;\"><div class=\"card\"><h4 class=\"card-title\">Untitled</h4></div></a>",
              warnings := [] }
    ∧ MsuCard.render { icon := some "<ix>" }
        = Except.ok
            { html := "<div class=\"card\"><div style=\"font-size: 3rem; margin-bottom: var(--space-4);\">\n                <ion-icon name=\"<ix>\" style=\"font-size:3rem;\"></ion-icon>\n            </div><h4 class=\"card-title\">Untitled</h4></div>",
              warnings := [] } :=
  ⟨fun s => escapeHtmlList_no_angle s.data, rfl, rfl, rfl⟩

/-- Claim C3 (code bug): the footer filter is meant to exclude the home
page, but the site-wide Home entry has href /index.html, which neither
contains the hash-home fragment nor equals index.html, so it is kept: with
no page links the filter removes nothing and the Home quick link is
rendered. -/
theorem footer_home_link_not_excluded :
    footerLinkKeep (LinkEntry.toJson { href := "/index.html", text := "Home" })
        = Except.ok true
    ∧ jsFilterExcept footerLinkKeep defaultSiteLinksJson = Except.ok defaultSiteLinksJson
    ∧ navJoin footerQuickLinkHtml defaultSiteLinksJson
        = Except.ok
            ("<li><a href=\"/index.html\" style=\"color: var(--color-text-secondary); font-size: var(--font-size-sm);\">Home</a></li>"
              ++ "<li><a href=\"/future.html\" style=\"color: var(--color-text-secondary); font-size: var(--font-size-sm);\">Demo</a></li>") :=
  ⟨rfl, rfl, rfl⟩

/-- Claim C5 (counterexample): a present-but-empty color attribute does not
override the variant — it is falsy, so the purple variant styles are
produced, not the styles produced when no variant is present. -/
theorem badge_empty_color_not_override_cex :
    MsuBadge.getBadgeStyles (some "purple") (some "") false
        = badgeBaseStyles ++ badgePurpleLight
    ∧ MsuBadge.getBadgeStyles (some "purple") (some "") false
        ≠ MsuBadge.getBadgeStyles none (some "") false :=
  ⟨rfl, by decide⟩

/-- Claim C5 (amended): a present NON-EMPTY color attribute overrides any
variant; with neither a non-empty color nor a recognized variant the
default green path is taken, whose styles are background hex dcfce7 with
text hex 1a9659 in light theme and background hex 1a2622 with text hex
4ade80 in dark theme. -/
theorem badge_style_precedence :
    (∀ (v : Option String) (c : String) (d : Bool), c ≠ "" →
        MsuBadge.getBadgeStyles v (some c) d = MsuBadge.getBadgeStyles none (some c) d)
    ∧ (∀ (v c : Option String) (d : Bool),
        truthyOpt c = false → v ≠ some "purple" → v ≠ some "orange" →
        MsuBadge.getBadgeStyles v c d
          = badgeBaseStyles ++ (if d then badgeGreenDark else badgeGreenLight))
    ∧ badgeGreenLight
        = "\n                    .badge \x7b\n                        background-color: #dcfce7;\n                        color: #1a9659;\n                        border: none;\n                    \x7d\n                "
    ∧ badgeGreenDark
        = "\n                    .badge \x7b\n                        background-color: #1a2622;\n                        color: #4ade80;\n                        border: none;\n                    \x7d\n                " := by
  refine ⟨?_, ?_, rfl, rfl⟩
  · intro v c d h
    simp [MsuBadge.getBadgeStyles, truthyOpt, h]
  · intro v c d h1 h2 h3
    simp [MsuBadge.getBadgeStyles, h1, h2, h3]

/-- Claim C5 (witness): the amended precedence at concrete inputs. -/
theorem badge_style_precedence_witness :
    MsuBadge.getBadgeStyles (some "purple") (some "red") false
        = MsuBadge.getBadgeStyles none (some "red") false
    ∧ MsuBadge.getBadgeStyles (some "banana") none true
        = badgeBaseStyles ++ (if true then badgeGreenDark else badgeGreenLight) :=
  ⟨badge_style_precedence.1 (some "purple") "red" false (by decide),
   badge_style_precedence.2.1 (some "banana") none true (by decide) (by decide) (by decide)⟩

/-- Claim C6 (counterexample): a three-digit hex color matches neither the
six-digit hex form nor the rgb form, yet it is not returned unchanged — the
hash branch re-emits an rgba string with a NaN channel. -/
theorem addAlpha_short_hex_cex :
    MsuBadge.addAlpha "#f00" "0.1" = "rgba(240, 0, NaN, 0.1)"
    ∧ MsuBadge.addAlpha "#f00" "0.1" ≠ "#f00"
    ∧ ("#f00" : String).length = 4
    ∧ strStartsWith "#f00" "rgb" = false :=
  ⟨rfl, by decide, rfl, rfl⟩

/-- Claim C6 (amended): addAlpha re-emits a six-digit hex or an rgb/rgba
functional literal as an rgba string carrying the requested alpha; an input
starting with neither a hash nor rgb is returned unchanged, as is an
rgb-prefixed input without three digit runs; but a hash-prefixed input that
is not six hex digits is re-emitted with NaN in the unparsable channels
rather than returned unchanged. -/
theorem addAlpha_parse_and_passthrough :
    (∀ (s alpha : String), strStartsWith s "#" = false → strStartsWith s "rgb" = false →
        MsuBadge.addAlpha s alpha = s)
    ∧ (∀ alpha : String,
        MsuBadge.addAlpha "rgb(255,0,0)" alpha = "rgba(255, 0, 0, " ++ alpha ++ ")")
    ∧ (∀ alpha : String,
        MsuBadge.addAlpha "#3b82f6" alpha = "rgba(59, 130, 246, " ++ alpha ++ ")")
    ∧ (∀ alpha : String, MsuBadge.addAlpha "rgb()" alpha = "rgb()")
    ∧ MsuBadge.addAlpha "#f00" "0.1" = "rgba(240, 0, NaN, 0.1)" := by
  refine ⟨?_, fun alpha => rfl, fun alpha => rfl, fun alpha => rfl, rfl⟩
  intro s alpha h1 h2
  simp [MsuBadge.addAlpha, h1, h2]

/-- Claim C6 (witness): the passthrough case at a concrete input. -/
theorem addAlpha_parse_and_passthrough_witness :
    MsuBadge.addAlpha "salmon" "0.5" = "salmon" :=
  addAlpha_parse_and_passthrough.1 "salmon" "0.5" rfl rfl

/-- Claim C8: toggling flips light to dark and dark to light on both the
document attribute and the persisted value, so toggling twice from either
consistent flag state is the identity. -/
theorem theme_toggle_involution :
    ∀ t : String, t = "light" ∨ t = "dark" →
      toggleTheme { dataTheme := some t, storedTheme := some t }
          = { dataTheme := some (if t = "light" then "dark" else "light"),
              storedTheme := some (if t = "light" then "dark" else "light") }
      ∧ toggleTheme (toggleTheme { dataTheme := some t, storedTheme := some t })
          = { dataTheme := some t, storedTheme := some t } := by
  intro t h
  rcases h with h | h <;> subst h <;> exact ⟨by decide, by decide⟩

/-- Claim C8 (witness): the double toggle at the light flag. -/
theorem theme_toggle_involution_witness :
    toggleTheme (toggleTheme { dataTheme := some "light", storedTheme := some "light" })
      = { dataTheme := some "light", storedTheme := some "light" } :=
  (theme_toggle_involution "light" (Or.inl rfl)).2

/-- Claim C9 (counterexample): an invalid persisted value is not replaced by
light — the read returns it verbatim and setup applies it to the document
attribute, so the attribute is not confined to light and dark. -/
theorem theme_read_invalid_value_cex :
    setupThemeCurrentTheme (some "banana") = "banana"
    ∧ setupThemeApply { dataTheme := none, storedTheme := some "banana" }
        = { dataTheme := some "banana", storedTheme := some "banana" }
    ∧ ("banana" ≠ "light" ∧ "banana" ≠ "dark") :=
  ⟨rfl, rfl, by decide⟩

/-- Claim C9 (amended): the setup read returns the persisted value whenever
it is any non-empty string — valid or not — and falls back to light only
when the persisted value is absent or empty. -/
theorem theme_read_default_policy :
    setupThemeCurrentTheme (some "light") = "light"
    ∧ setupThemeCurrentTheme (some "dark") = "dark"
    ∧ setupThemeCurrentTheme none = "light"
    ∧ setupThemeCurrentTheme (some "") = "light"
    ∧ (∀ s : String, s ≠ "" → setupThemeCurrentTheme (some s) = s) :=
  ⟨rfl, rfl, rfl, rfl, fun s h => by simp [setupThemeCurrentTheme, jsOrStr, h]⟩

/-- Claim C9 (witness): the pass-through branch at a concrete invalid
value. -/
theorem theme_read_default_policy_witness :
    setupThemeCurrentTheme (some "banana") = "banana" :=
  theme_read_default_policy.2.2.2.2 "banana" (by decide)

/-- Claim C10: the string A is valid JSON but not an array; with it as the
badges attribute the render throws the forEach TypeError instead of
degrading — the parse result type is never checked. -/
theorem card_nonarray_badges_typeerror :
    JSON.parse "\"A\"" = Except.ok (Json.str "A")
    ∧ MsuCard.render { badges := some "\"A\"" } = Except.error errForEach :=
  ⟨rfl, rfl⟩

/-- Claim C1 (counterexample): the navbar page-links parse has no try/catch:
a syntactically malformed JSON attribute makes connectedCallback throw
instead of recovering with an empty list. -/
theorem navbar_malformed_pagelinks_throws_cex :
    MsuNavbar.connectedCallback (some "\x7bnot json") = Except.error JSON.errKey := rfl

/-- Claim C1 (amended): only the card recovers from malformed JSON, and it
does so per attribute — a badges attribute that fails to parse is replaced
by the empty list with one diagnostic logged, whatever the color-badges
attribute holds, and symmetrically for color-badges — in particular a card
with only a malformed badges attribute renders zero badges without
throwing; the navbar and the footer parse page-links unguarded and throw on
a malformed value. -/
theorem json_attr_recovery_scope :
    (∀ (a : CardAttrs) (e : String),
        JSON.parse (jsOrStr a.badges "[]") = Except.error e →
        MsuCard.render a =
          (MsuCard.render { a with badges := some "[]" }).map
            (fun out =>
              { html := out.html,
                warnings :=
                  ("Failed to parse badges JSON: " ++ jsOrStr a.badges "[]")
                    :: out.warnings }))
    ∧ (∀ (a : CardAttrs) (e : String),
        JSON.parse (jsOrStr a.colorBadges "[]") = Except.error e →
        MsuCard.render a =
          (MsuCard.render { a with colorBadges := some "[]" }).map
            (fun out =>
              { html := out.html,
                warnings :=
                  out.warnings
                    ++ ["Failed to parse color-badges JSON: "
                          ++ jsOrStr a.colorBadges "[]"] }))
    ∧ MsuCard.render { badges := some "\x7bnot json" }
        = Except.ok
            { html := "<div class=\"card\"><h4 class=\"card-title\">Untitled</h4></div>",
              warnings := ["Failed to parse badges JSON: \x7bnot json"] }
    ∧ MsuNavbar.connectedCallback (some "\x7bnot json") = Except.error JSON.errKey
    ∧ MsuFooter.connectedCallback (some "\x7bnot json") 2026 = Except.error JSON.errKey := by
  refine ⟨?_, ?_, rfl, rfl, rfl⟩
  · intro a e h1
    have hpb : parseBadgeList "Failed to parse badges JSON: " (jsOrStr a.badges "[]")
        = (Json.arr [], ["Failed to parse badges JSON: " ++ jsOrStr a.badges "[]"]) := by
      simp [parseBadgeList, h1]
    have hpb2 : parseBadgeList "Failed to parse badges JSON: " (jsOrStr (some "[]") "[]")
        = (Json.arr [], []) := rfl
    cases hc : cardBadgesSection
        (parseBadgeList "Failed to parse color-badges JSON: "
          (jsOrStr a.colorBadges "[]")).1 (Json.arr []) with
    | error er => simp [MsuCard.render, hpb, hpb2, hc, Except.map]
    | ok bh => simp [MsuCard.render, hpb, hpb2, hc, Except.map]
  · intro a e h2
    have hpc : parseBadgeList "Failed to parse color-badges JSON: "
          (jsOrStr a.colorBadges "[]")
        = (Json.arr [],
            ["Failed to parse color-badges JSON: " ++ jsOrStr a.colorBadges "[]"]) := by
      simp [parseBadgeList, h2]
    have hpc2 : parseBadgeList "Failed to parse color-badges JSON: "
          (jsOrStr (some "[]") "[]")
        = (Json.arr [], []) := rfl
    cases hc : cardBadgesSection (Json.arr [])
        (parseBadgeList "Failed to parse badges JSON: "
          (jsOrStr a.badges "[]")).1 with
    | error er => simp [MsuCard.render, hpc, hpc2, hc, Except.map]
    | ok bh => simp [MsuCard.render, hpc, hpc2, hc, Except.map]

/-- Claim C1 (witness): the badges recovery at a concrete malformed
attribute with the color-badges attribute left alone. -/
theorem json_attr_recovery_scope_witness :
    MsuCard.render { badges := some "\x7bnot json", colorBadges := some "also bad" } =
      (MsuCard.render { badges := some "[]", colorBadges := some "also bad" }).map
        (fun out =>
          { html := out.html,
            warnings :=
              ("Failed to parse badges JSON: "
                 ++ jsOrStr (some "\x7bnot json") "[]") :: out.warnings }) :=
  json_attr_recovery_scope.1
    { badges := some "\x7bnot json", colorBadges := some "also bad" }
    JSON.errKey rfl

/-- Claim C4: colored badges render before plain badges, order preserved
within each list, each color classified exactly one way (named variant,
custom color, or default); and the concrete card with badges A and B and no
color-badges renders exactly two default badges, A then B. -/
theorem card_badge_order_and_classification :
    (∀ (cbs : List (String × String)) (bs : List String),
        cardBadgesSection (Json.arr (cbs.map (fun p => mkColorBadge p.1 p.2)))
            (Json.arr (bs.map Json.str))
          = Except.ok
              (if cbs = [] ∧ bs = [] then ""
               else "<div class=\"card-badges\">"
                 ++ concatMapStr (fun p => specColorBadgeHtml p.1 p.2) cbs
                 ++ concatMapStr specPlainBadgeHtml bs ++ "</div>"))
    ∧ MsuCard.render { badges := some "[\"A\",\"B\"]" }
        = Except.ok
            { html := "<div class=\"card\"><h4 class=\"card-title\">Untitled</h4><div class=\"card-badges\"><msu-badge>A</msu-badge><msu-badge>B</msu-badge></div></div>",
              warnings := [] } := by
  refine ⟨?_, rfl⟩
  intro cbs bs
  by_cases hboth : cbs = [] ∧ bs = []
  · obtain ⟨h1, h2⟩ := hboth
    subst h1; subst h2
    simp [cardBadgesSection, jsLenGtZeroOr, jsLengthGtZero]
  · have hlen : jsLenGtZeroOr (Json.arr (cbs.map (fun p => mkColorBadge p.1 p.2)))
        (Json.arr (bs.map Json.str)) = Except.ok true := by
      rcases cbs with _ | ⟨p, ps⟩
      · rcases bs with _ | ⟨b, bs2⟩
        · exact absurd ⟨rfl, rfl⟩ hboth
        · rfl
      · rfl
    simp [cardBadgesSection, hlen, jsForEach, jsForEachArr_colorBadges,
      jsForEachArr_plainBadges, hboth]

/-- Claim C7: the navbar desktop and mobile link lists are both generated
from the merged list of the fixed site links followed by the page links, in
order, each entry carrying the same href and text in both renderings (the
css class is the only difference), and the full render splices exactly
those two lists into the shell. -/
theorem navbar_desktop_mobile_links_merge :
    ∀ pageLinks : List LinkEntry,
      navJoin desktopNavLinkHtml (defaultSiteLinksJson ++ pageLinks.map LinkEntry.toJson)
          = Except.ok (concatMapStr (specNavLinkHtml "navbar-link")
              (defaultSiteLinkEntries ++ pageLinks))
      ∧ navJoin mobileNavLinkHtml (defaultSiteLinksJson ++ pageLinks.map LinkEntry.toJson)
          = Except.ok (concatMapStr (specNavLinkHtml "mobile-menu-link")
              (defaultSiteLinkEntries ++ pageLinks))
      ∧ MsuNavbar.render (defaultSiteLinksJson ++ pageLinks.map LinkEntry.toJson)
          = Except.ok (navbarShellHtml
              (concatMapStr (specNavLinkHtml "navbar-link")
                (defaultSiteLinkEntries ++ pageLinks))
              (concatMapStr (specNavLinkHtml "mobile-menu-link")
                (defaultSiteLinkEntries ++ pageLinks))) := by
  intro pageLinks
  have hd : ∀ l : LinkEntry,
      desktopNavLinkHtml l.toJson = Except.ok (specNavLinkHtml "navbar-link" l) :=
    fun l => rfl
  have hm : ∀ l : LinkEntry,
      mobileNavLinkHtml l.toJson = Except.ok (specNavLinkHtml "mobile-menu-link" l) :=
    fun l => rfl
  have h1 := navJoin_map_ok desktopNavLinkHtml (specNavLinkHtml "navbar-link") hd
    (defaultSiteLinkEntries ++ pageLinks)
  have h2 := navJoin_map_ok mobileNavLinkHtml (specNavLinkHtml "mobile-menu-link") hm
    (defaultSiteLinkEntries ++ pageLinks)
  rw [List.map_append] at h1 h2
  simp only [defaultSiteLinksJson]
  exact ⟨h1, h2, by simp [MsuNavbar.render, h1, h2]⟩
